import Mathlib

/-
Verification development for generate_prompts.py (genMJP repository).

The script's string handling is embedded at the character-list level so that
every definition is executable by kernel reduction. Each `py...` definition
models the corresponding Python string method used by the source.
-/

namespace GenMJP

/-- Python whitespace predicate used by str.strip: space, tab, LF, CR,
vertical tab, form feed. -/
def pyIsSpace (c : Char) : Bool :=
  c == ' ' || c == '\t' || c == '\n' || c == '\r' ||
  c == Char.ofNat 11 || c == Char.ofNat 12

/-- Model of Python str.strip() on a character list: drop whitespace from
both ends. -/
def pyStripList (l : List Char) : List Char :=
  ((l.dropWhile pyIsSpace).reverse.dropWhile pyIsSpace).reverse

/-- Model of Python str.strip(): remove leading and trailing whitespace. -/
def pyStrip (s : String) : String :=
  ⟨pyStripList s.data⟩

/-- Auxiliary splitter: walk the character list, cutting a chunk each time the
separator occurs (leftmost, non-overlapping), exactly like Python str.split
with a non-empty separator. Fuel is at least the list length plus one, so the
fallback arm is never reached on the intended calls. -/
def splitFuel (sep : List Char) : Nat → List Char → List Char → List (List Char)
  | 0, l, acc => [acc ++ l]
  | fuel + 1, l, acc =>
    match l with
    | [] => [acc]
    | c :: cs =>
      if sep ≠ [] ∧ sep.isPrefixOf (c :: cs) then
        acc :: splitFuel sep fuel (List.drop sep.length (c :: cs)) []
      else
        splitFuel sep fuel cs (acc ++ [c])

/-- Model of Python s.split(sep) for a non-empty separator sep. -/
def pySplitOn (s sep : String) : List String :=
  if sep = "" then [s]
  else (splitFuel sep.data (s.data.length + 1) s.data []).map fun l => ⟨l⟩

/-- Auxiliary replacer for Python str.replace: replace each leftmost,
non-overlapping occurrence of old by new. -/
def replaceFuel (old new : List Char) : Nat → List Char → List Char
  | 0, l => l
  | fuel + 1, l =>
    match l with
    | [] => []
    | c :: cs =>
      if old ≠ [] ∧ old.isPrefixOf (c :: cs) then
        new ++ replaceFuel old new fuel (List.drop old.length (c :: cs))
      else
        c :: replaceFuel old new fuel cs

/-- Model of Python s.replace(old, new) for non-empty old. -/
def pyReplace (s old new : String) : String :=
  if old = "" then s
  else ⟨replaceFuel old.data new.data (s.data.length + 1) s.data⟩

/-- Model of Python s.startswith(p). -/
def pyStartsWith (s p : String) : Bool :=
  List.isPrefixOf p.data s.data

/-- Auxiliary substring search for the Python `in` operator on strings. -/
def strContainsAux (sub : List Char) : Nat → List Char → Bool
  | 0, _ => false
  | fuel + 1, l =>
    if sub.isPrefixOf l then true
    else
      match l with
      | [] => false
      | _ :: cs => strContainsAux sub fuel cs

/-- Model of the Python test `sub in s` for strings. -/
def pyContainsStr (s sub : String) : Bool :=
  strContainsAux sub.data (s.data.length + 1) s.data

/-- Model of the Python test `c in s` for a single character. -/
def pyContainsChar (s : String) (c : Char) : Bool :=
  s.data.contains c

/-- A parsed topic-keyword combination, as built by generate_topic_keywords. -/
structure TopicCombo where
  topic : String
  keywords : List String
deriving DecidableEq, Repr

/-- Embedding of the per-line body of the parsing loop in
generate_topic_keywords (source lines 116-141). Every exception raised inside
the loop body is caught by its `except` clause, so the embedded function is
total and returns none for any malformed line. -/
def parseLine (combo : String) : Option TopicCombo :=
  if pyContainsStr combo " | " then
    match pySplitOn combo " | " with
    | [topicPart, keywordsPart] =>
      if !(pyStartsWith topicPart "Topic:") || !(pyStartsWith keywordsPart "Keywords:") then
        none
      else
        let topic := pyStrip (pyReplace topicPart "Topic:" "")
        let keywords := (pySplitOn (pyReplace keywordsPart "Keywords:" "") ",").map pyStrip
        if topic = "" ∨ keywords = [] then none
        else if keywords.length ≠ 5 then none
        else some ⟨topic, keywords⟩
    | _ => none
  else none

/-- Embedding of the parsing phase of generate_topic_keywords: the raw message
payload is stripped (source line 107), split into lines (line 111), and each
line is run through the loop body. -/
def parseCombinations (payload : String) : List TopicCombo :=
  (pySplitOn (pyStrip payload) "\n").filterMap parseLine

deriving instance DecidableEq for Except

/-- Embedding of the tail of generate_topic_keywords (source lines 143-146):
if no valid combination was parsed, raise ValueError; otherwise return the
parsed list. -/
def generateTopicKeywords (payload : String) : Except String (List TopicCombo) :=
  let result := parseCombinations payload
  if result.isEmpty then
    Except.error "Failed to parse any valid topic-keyword combinations from response"
  else
    Except.ok result

/-- Outcome of the poll-until-complete loop: either the job completed and the
first message text is returned, or a TimeoutError was raised. The timedOut
constructor carries the number of seconds interpolated into the error message,
which in the source is the f-string
"OpenAI took too long to respond (>{timeout_seconds}s)" (lines 104 and 185). -/
inductive PollOutcome where
  | completed (text : String)
  | timedOut (reported : ℚ)
deriving DecidableEq, Repr

/-- Embedding of the poll-until-complete loop shared by generate_prompt
(lines 175-185) and generate_topic_keywords (lines 94-104). At iteration i the
run is retrieved; status i is its status and elapsed i the wall-clock seconds
since start measured at the subsequent check. The loop body is iterated with
explicit fuel; none means the fuel was exhausted before the loop exited. The
returned pair records the iteration at which the loop exited and its outcome;
text is the payload fetched from the thread after completion. -/
def pollFrom (status : Nat → String) (elapsed : Nat → ℚ) (timeout : ℚ)
    (text : String) : Nat → Nat → Option (Nat × PollOutcome)
  | _, 0 => none
  | i, fuel + 1 =>
    if status i = "completed" then some (i, PollOutcome.completed text)
    else if timeout < elapsed i then some (i, PollOutcome.timedOut timeout)
    else pollFrom status elapsed timeout text (i + 1) fuel

/-- Embedding of line 188 of the source: generate_prompt returns the fetched
message payload as is, with no stripping. -/
def generatePromptResult (payload : String) : String :=
  payload

/-- Content of the dated output file: none when the file does not exist. -/
def fileContent : Option String → String
  | none => ""
  | some c => c

/-- Embedding of the write performed by save_prompt (lines 195-206): the file
is read (empty if absent), and the prompt is appended, preceded by a newline
exactly when the stripped existing content is non-empty. The returned string
is the file content after the append. -/
def saveContent : Option String → String → String
  | none, p => p
  | some c, p => if pyStrip c ≠ "" then c ++ "\n" ++ p else c ++ p

/-- File state after one save_prompt call: the file now exists and holds
saveContent. -/
def saveState (fs : Option String) (p : String) : Option String :=
  some (saveContent fs p)

/-- Two-digit zero-padded decimal, as produced by each strftime field of
'%y%m%d' for values below 100. -/
def pad2 (n : Nat) : String :=
  if n < 10 then "0" ++ toString n else toString n

/-- Embedding of datetime.now(...).strftime('%y%m%d') for a date given as
year, month, day. -/
def dateYYMMDD (y m d : Nat) : String :=
  pad2 (y % 100) ++ pad2 m ++ pad2 d

/-- Embedding of line 193: the output filename derived from the current
date. -/
def outputFilename (y m d : Nat) : String :=
  "midjourney_prompts_" ++ dateYYMMDD y m d ++ ".txt"

/-- Outcome of one planned generate-and-save iteration of the inner loop of
main (lines 271-282): the generate_prompt call returns raw text, or some step
of the try block raises an Exception (caught at line 280), or a
KeyboardInterrupt arrives while the item is in flight. KeyboardInterrupt is
not an Exception in Python, so it escapes the inner handler and reaches the
handler at line 283. -/
inductive GenEvent where
  | ok (raw : String)
  | fail
  | interrupt
deriving DecidableEq, Repr

/-- Result of the generation phase of main: final file state, the number of
prompts generated and saved, and the process exit code. -/
structure RunResult where
  file : Option String
  count : Nat
  exitCode : Nat
deriving DecidableEq, Repr

/-- Embedding of the generation loop of main (lines 264-287), flattened over
the planned items. An ok item is stripped (line 273) and saved (line 274); a
fail item is logged and skipped (lines 280-282); an interrupt abandons the
loop immediately and the process exits with code 0 (lines 283-287). Normal
completion also exits with code 0. -/
def runLoop : Option String → List GenEvent → RunResult
  | fs, [] => ⟨fs, 0, 0⟩
  | fs, GenEvent.ok raw :: rest =>
    let fs2 := saveState fs (pyStrip raw)
    let r := runLoop fs2 rest
    ⟨r.file, r.count + 1, r.exitCode⟩
  | fs, GenEvent.fail :: rest => runLoop fs rest
  | fs, GenEvent.interrupt :: _ => ⟨fs, 0, 0⟩

/-- Errors load_config can raise: the uncaught ValueError from tuple
unpacking at line 46, or the configuration ValueError listing the missing
keys (lines 61-66). -/
inductive LoadError where
  | unpack (line : String)
  | missingKeys (keys : List String)
deriving DecidableEq, Repr

/-- The two required configuration keys (line 39). -/
def requiredKeys : List String := ["OPENAI_API_KEY", "ASSISTANT_ID"]

/-- Embedding of one iteration of the file-reading loop of load_config
(lines 44-47): lines without '=' are ignored; otherwise the stripped line is
split on '=' and unpacked into key and value, which raises ValueError unless
the split has exactly two parts; on success the pair is stored in the config
dict, overwriting any earlier value. -/
def processConfigLine (cfg : String → Option String) (line : String) :
    Except LoadError (String → Option String) :=
  if pyContainsChar line '=' then
    match pySplitOn (pyStrip line) "=" with
    | [key, value] => Except.ok fun q => if q = key then some value else cfg q
    | _ => Except.error (LoadError.unpack line)
  else Except.ok cfg

/-- The file-reading loop of load_config over all lines of config.txt. -/
def processLines (cfg : String → Option String) :
    List String → Except LoadError (String → Option String)
  | [] => Except.ok cfg
  | l :: ls =>
    match processConfigLine cfg l with
    | Except.error e => Except.error e
    | Except.ok cfg2 => processLines cfg2 ls

/-- Embedding of the environment fallback of load_config (lines 52-56): for
each required key absent from the dict, a non-None, non-empty environment
value is stored. -/
def fillFromEnv (env : String → Option String) (cfg : String → Option String) :
    List String → (String → Option String)
  | [] => cfg
  | k :: ks =>
    match cfg k with
    | some _ => fillFromEnv env cfg ks
    | none =>
      match env k with
      | some v =>
        if v = "" then fillFromEnv env cfg ks
        else fillFromEnv env (fun q => if q = k then some v else cfg q) ks
      | none => fillFromEnv env cfg ks

/-- Embedding of load_config (lines 36-68). The file argument is none when
config.txt does not exist (FileNotFoundError is caught and ignored);
otherwise it is the list of lines. env models os.getenv. The result is the
config dict, or the first error raised. -/
def loadConfig (file : Option (List String)) (env : String → Option String) :
    Except LoadError (String → Option String) :=
  match (match file with
         | none => Except.ok (fun _ => none)
         | some ls => processLines (fun _ => none) ls) with
  | Except.error e => Except.error e
  | Except.ok cfg =>
    let cfg2 := fillFromEnv env cfg requiredKeys
    match requiredKeys.filter (fun k => (cfg2 k).isNone) with
    | [] => Except.ok cfg2
    | missing => Except.error (LoadError.missingKeys missing)

/-- Each save_prompt call appends the item after a separator that is either
empty or a single newline. -/
theorem saveContent_split (fs : Option String) (p : String) :
    ∃ s : String, (s = "" ∨ s = "\n") ∧
      saveContent fs p = fileContent fs ++ (s ++ p) := by
  cases fs with
  | none =>
    exact ⟨"", Or.inl rfl, by simp [saveContent, fileContent, String.empty_append]⟩
  | some c =>
    by_cases h : pyStrip c ≠ ""
    · exact ⟨"\n", Or.inr rfl, by simp [saveContent, fileContent, h, String.append_assoc]⟩
    · exact ⟨"", Or.inl rfl, by simp [saveContent, fileContent, h, String.empty_append]⟩

/-- C4: the persistence sink is append-only and order-preserving: saving a,
then b, then c leaves the prior content untouched and appends a, b, c in that
order, separated only by optional single newlines, with no reordering or
deduplication. -/
theorem savePrompt_append_only_order (fs : Option String) (a b c : String) :
    ∃ s1 s2 s3 : String,
      (s1 = "" ∨ s1 = "\n") ∧ (s2 = "" ∨ s2 = "\n") ∧ (s3 = "" ∨ s3 = "\n") ∧
      fileContent (saveState (saveState (saveState fs a) b) c) =
        fileContent fs ++ (s1 ++ (a ++ (s2 ++ (b ++ (s3 ++ c))))) := by
  obtain ⟨s1, h1, e1⟩ := saveContent_split fs a
  obtain ⟨s2, h2, e2⟩ := saveContent_split (saveState fs a) b
  obtain ⟨s3, h3, e3⟩ := saveContent_split (saveState (saveState fs a) b) c
  refine ⟨s1, s2, s3, h1, h2, h3, ?_⟩
  have hA : fileContent (saveState fs a) = fileContent fs ++ (s1 ++ a) := e1
  have hB : fileContent (saveState (saveState fs a) b) =
      fileContent (saveState fs a) ++ (s2 ++ b) := e2
  have hC : fileContent (saveState (saveState (saveState fs a) b) c) =
      fileContent (saveState (saveState fs a) b) ++ (s3 ++ c) := e3
  rw [hC, hB, hA]
  simp [String.append_assoc]

/-- C5 counterexample: a file whose content is a single space has content,
yet save_prompt inserts no newline separator before the new item, because the
source tests the stripped content. -/
theorem savePrompt_separator_counterexample :
    (" " : String) ≠ "" ∧ saveContent (some " ") "x" = " x" ∧
      (" x" : String) ≠ " " ++ "\n" ++ "x" := by decide

/-- C5 as amended: save_prompt writes to midjourney_prompts_YYMMDD.txt
derived from the current date, creates the file when absent, and inserts the
newline separator if and only if the existing content is non-empty after
stripping whitespace. -/
theorem savePrompt_separator_iff_stripped_nonempty (y m d : Nat) (c item : String) :
    outputFilename y m d = "midjourney_prompts_" ++ dateYYMMDD y m d ++ ".txt"
    ∧ saveContent none item = item
    ∧ (saveContent (some c) item = c ++ "\n" ++ item ↔ pyStrip c ≠ "") := by
  refine ⟨rfl, rfl, ?_, fun h => by simp [saveContent, h]⟩
  intro he
  by_contra h0
  have hplain : saveContent (some c) item = c ++ item := by
    simp [saveContent, h0]
  rw [hplain] at he
  have hd := congrArg String.data he
  simp only [String.data_append] at hd
  have hd2 : item.data = "\n".data ++ item.data := by
    have := List.append_cancel_left (hd.trans (List.append_assoc _ _ _))
    exact this
  have hlen := congrArg List.length hd2
  simp at hlen

/-- C6: a failure raised while generating or saving one item is caught and
skipped: the run over any plan with a failing item inserted is identical to
the run without it, so no per-item failure aborts the run and items persisted
in earlier iterations are unaffected. -/
theorem runLoop_failure_skipped (fs : Option String) (pre post : List GenEvent) :
    runLoop fs (pre ++ GenEvent.fail :: post) = runLoop fs (pre ++ post) := by
  induction pre generalizing fs with
  | nil => simp [runLoop]
  | cons e pre ih =>
    cases e with
    | ok raw => simp [runLoop, ih]
    | fail => simp [runLoop, ih]
    | interrupt => simp [runLoop]

/-- C9 counterexample: generate_prompt returns the fetched payload as is
(line 188 has no strip), so for a payload with surrounding whitespace the
returned string differs from the trimmed payload. -/
theorem generatePrompt_returns_untrimmed_counterexample :
    generatePromptResult " prompt " ≠ pyStrip " prompt " ∧
      generatePromptResult " prompt " = " prompt " ∧
      pyStrip " prompt " = "prompt" := by decide

/-- C9 as amended: generate_prompt returns the completed job's payload
unmodified; the trimming happens in the caller, which strips the returned
text before saving it, so the persisted item is the trimmed payload. -/
theorem generatePrompt_raw_and_caller_trims (payload : String) (fs : Option String) :
    generatePromptResult payload = payload ∧
      runLoop fs [GenEvent.ok payload] = ⟨saveState fs (pyStrip payload), 1, 0⟩ :=
  ⟨rfl, rfl⟩

/-- C1: when a KeyboardInterrupt arrives while the third item is in flight,
after two items have been generated and saved into an initially absent file,
the loop exits through the interrupt handler: the file holds exactly the two
saved items and the process exit code is 0. The in-flight item never returned
from generate_prompt, so nothing of it is written. -/
theorem interrupt_flushes_saved_items (p1 p2 : String) (rest : List GenEvent)
    (h1 : pyStrip p1 = p1) (h2 : pyStrip p2 = p2) (hne : p1 ≠ "") :
    runLoop none (GenEvent.ok p1 :: GenEvent.ok p2 :: GenEvent.interrupt :: rest) =
      ⟨some (p1 ++ "\n" ++ p2), 2, 0⟩ := by
  have e1 : saveContent none (pyStrip p1) = p1 := by
    simp [saveContent, h1]
  have e2 : saveContent (some p1) (pyStrip p2) = p1 ++ "\n" ++ p2 := by
    rw [h2]
    simp [saveContent, h1, hne]
  simp [runLoop, saveState, e1, e2]

/-- Witness for C1 at a concrete interrupted run. -/
theorem interrupt_flushes_saved_items_witness :
    runLoop none (GenEvent.ok "alpha" :: GenEvent.ok "beta" ::
        GenEvent.interrupt :: [GenEvent.ok "gamma"]) =
      ⟨some ("alpha" ++ "\n" ++ "beta"), 2, 0⟩ :=
  interrupt_flushes_saved_items "alpha" "beta" [GenEvent.ok "gamma"]
    (by decide) (by decide) (by decide)

/-- C3: the topic/keyword parser skips each malformed line without raising:
a line without the separator, a two-part line missing the Topic or Keywords
prefix, and a two-part line whose keyword count is not exactly 5 all parse to
none; and generate_topic_keywords raises if and only if zero valid
combinations remain after parsing the whole response. -/
theorem topicParse_malformed_skipped (combo payload : String) :
    (pyContainsStr combo " | " = false → parseLine combo = none)
    ∧ (∀ tp kp, pySplitOn combo " | " = [tp, kp] →
        (pyStartsWith tp "Topic:" = false ∨ pyStartsWith kp "Keywords:" = false) →
        parseLine combo = none)
    ∧ (∀ tp kp, pySplitOn combo " | " = [tp, kp] →
        ((pySplitOn (pyReplace kp "Keywords:" "") ",").map pyStrip).length ≠ 5 →
        parseLine combo = none)
    ∧ ((∃ e, generateTopicKeywords payload = Except.error e) ↔
        parseCombinations payload = []) := by
  refine ⟨fun h => by simp [parseLine, h], ?_, ?_, ?_⟩
  · intro tp kp hsp hpre
    by_cases hc : pyContainsStr combo " | "
    · rcases hpre with h | h <;> simp [parseLine, hc, hsp, h]
    · simp [parseLine, hc]
  · intro tp kp hsp hlen
    by_cases hc : pyContainsStr combo " | "
    · have hlen2 : (pySplitOn (pyReplace kp "Keywords:" "") ",").length ≠ 5 := by
        simpa using hlen
      cases hA : pyStartsWith tp "Topic:" <;>
        cases hB : pyStartsWith kp "Keywords:" <;>
          (simp [parseLine, hc, hsp, hA, hB]
           try exact fun _ _ => hlen2)
    · simp [parseLine, hc]
  · constructor
    · rintro ⟨e, he⟩
      by_cases h : (parseCombinations payload).isEmpty
      · exact List.isEmpty_iff.mp h
      · simp [generateTopicKeywords, h] at he
    · intro h
      exact ⟨"Failed to parse any valid topic-keyword combinations from response",
        by simp [generateTopicKeywords, h]⟩

/-- Witness for C3: a line with only two keywords is skipped, and a response
with no valid line makes generate_topic_keywords fail. -/
theorem topicParse_malformed_skipped_witness :
    parseLine "Topic: a | Keywords: b, c" = none ∧
      (∃ e, generateTopicKeywords "junk" = Except.error e) := by
  constructor
  · exact (topicParse_malformed_skipped "Topic: a | Keywords: b, c" "junk").2.2.1
      "Topic: a" "Keywords: b, c" (by decide) (by decide)
  · exact (topicParse_malformed_skipped "Topic: a | Keywords: b, c" "junk").2.2.2.mpr
      (by decide)

/-- The poll loop can only return the completed outcome at an iteration whose
status is completed. -/
theorem pollFrom_never_completed (status : Nat → String) (elapsed : Nat → ℚ)
    (timeout : ℚ) (text : String) (hnc : ∀ n, status n ≠ "completed") :
    ∀ fuel i j s,
      pollFrom status elapsed timeout text i fuel ≠ some (j, PollOutcome.completed s) := by
  intro fuel
  induction fuel with
  | zero => intro i j s h; simp [pollFrom] at h
  | succ n ih =>
    intro i j s h
    simp only [pollFrom] at h
    rw [if_neg (hnc i)] at h
    by_cases hto : timeout < elapsed i
    · rw [if_pos hto] at h
      simp at h
    · rw [if_neg hto] at h
      exact ih (i + 1) j s h

/-- If no iteration before i + d exits and the clock first exceeds the
timeout at iteration i + d, the loop started at i exits there with the
timeout outcome. -/
theorem pollFrom_reach (status : Nat → String) (elapsed : Nat → ℚ)
    (timeout : ℚ) (text : String) (hnc : ∀ n, status n ≠ "completed") :
    ∀ d i, (∀ m, m < d → ¬ timeout < elapsed (i + m)) →
      timeout < elapsed (i + d) →
      pollFrom status elapsed timeout text i (d + 1) =
        some (i + d, PollOutcome.timedOut timeout) := by
  intro d
  induction d with
  | zero =>
    intro i _ hex
    rw [pollFrom, if_neg (hnc i), if_pos (by simpa using hex)]
    simp
  | succ n ih =>
    intro i hlt hex
    have h0 : ¬ timeout < elapsed i := by simpa using hlt 0 (Nat.succ_pos n)
    rw [pollFrom, if_neg (hnc i), if_neg h0]
    have hstep := ih (i + 1)
      (fun m hm => by
        have h1 := hlt (m + 1) (by omega)
        have harith : i + (m + 1) = i + 1 + m := by omega
        rwa [harith] at h1)
      (by
        have harith : i + (n + 1) = i + 1 + n := by omega
        rwa [harith] at hex)
    rw [hstep]
    have harith : i + 1 + n = i + (n + 1) := by omega
    rw [harith]

/-- C2: for every timeout value t and a job whose status never becomes
completed, the poll loop terminates by raising TimeoutError at a moment when
the elapsed wall-clock time is at least t, and it never returns a result text
for such a job. Termination assumes only that the wall clock is unbounded. -/
theorem pollLoop_timeout_termination (status : Nat → String) (elapsed : Nat → ℚ)
    (timeout : ℚ) (text : String)
    (hnc : ∀ n, status n ≠ "completed")
    (hub : ∀ B : ℚ, ∃ i : ℕ, B < elapsed i) :
    (∃ fuel j, pollFrom status elapsed timeout text 0 fuel =
        some (j, PollOutcome.timedOut timeout) ∧ timeout ≤ elapsed j)
    ∧ ∀ fuel i j s,
        pollFrom status elapsed timeout text i fuel ≠ some (j, PollOutcome.completed s) := by
  refine ⟨?_, pollFrom_never_completed status elapsed timeout text hnc⟩
  have hex : ∃ i, timeout < elapsed i := hub timeout
  refine ⟨Nat.find hex + 1, Nat.find hex, ?_, le_of_lt (Nat.find_spec hex)⟩
  have h := pollFrom_reach status elapsed timeout text hnc (Nat.find hex) 0
    (fun m hm => by simpa using Nat.find_min hex hm)
    (by simpa using Nat.find_spec hex)
  simpa using h

/-- Witness for C2 on a job that stays queued forever under a clock that
advances one second per poll. -/
theorem pollLoop_timeout_termination_witness :
    (∃ fuel j, pollFrom (fun _ => "queued") (fun i => (i : ℚ)) 600 "text" 0 fuel =
        some (j, PollOutcome.timedOut 600) ∧ (600 : ℚ) ≤ (j : ℚ))
    ∧ ∀ fuel i j s,
        pollFrom (fun _ => "queued") (fun i => (i : ℚ)) 600 "text" i fuel ≠
          some (j, PollOutcome.completed s) :=
  pollLoop_timeout_termination (fun _ => "queued") (fun i => (i : ℚ)) 600 "text"
    (fun n => by simp) (fun B => exists_nat_gt B)

/-- C8 counterexample: on a run whose elapsed time at the failing poll is 602
seconds with a 600 second timeout, the raised TimeoutError carries 600, the
interpolated timeout threshold, which differs from the elapsed duration. -/
theorem pollTimeout_carries_threshold_counterexample :
    pollFrom (fun _ => "queued") (fun i => ((301 * (i + 1) : ℕ) : ℚ)) 600 "t" 0 2 =
      some (1, PollOutcome.timedOut 600)
    ∧ ((301 * (1 + 1) : ℕ) : ℚ) = 602
    ∧ (600 : ℚ) ≠ 602 := by decide

/-- C8 as amended: whenever the poll loop fails with TimeoutError, the value
the error carries is the configured timeout threshold interpolated into its
message, not the elapsed duration at the moment of failure. -/
theorem pollTimeout_reported_eq_threshold (status : Nat → String) (elapsed : Nat → ℚ)
    (timeout : ℚ) (text : String) :
    ∀ fuel i j r,
      pollFrom status elapsed timeout text i fuel = some (j, PollOutcome.timedOut r) →
      r = timeout := by
  intro fuel
  induction fuel with
  | zero => intro i j r h; simp [pollFrom] at h
  | succ n ih =>
    intro i j r h
    simp only [pollFrom] at h
    by_cases hc : status i = "completed"
    · rw [if_pos hc] at h
      simp at h
    · rw [if_neg hc] at h
      by_cases hto : timeout < elapsed i
      · rw [if_pos hto] at h
        simp at h
        exact h.2.symm
      · rw [if_neg hto] at h
        exact ih (i + 1) j r h

/-- Witness for the amended C8 at a concrete timed-out run. -/
theorem pollTimeout_reported_eq_threshold_witness : (600 : ℚ) = 600 :=
  pollTimeout_reported_eq_threshold (fun _ => "queued")
    (fun i => ((301 * (i + 1) : ℕ) : ℚ)) 600 "t" 2 0 1 600 (by decide)

/-- A failing processConfigLine call always raises the unpack ValueError for
its own line. -/
theorem processConfigLine_error_eq (cfg : String → Option String) (x : String)
    (e : LoadError) (h : processConfigLine cfg x = Except.error e) :
    e = LoadError.unpack x := by
  unfold processConfigLine at h
  by_cases hc : pyContainsChar x '='
  · rw [if_pos hc] at h
    rcases hsp : pySplitOn (pyStrip x) "=" with _ | ⟨p1, _ | ⟨p2, _ | ⟨p3, ps⟩⟩⟩ <;>
      rw [hsp] at h <;> simp at h <;> try exact h.symm
  · rw [if_neg hc] at h
    simp at h

/-- If some line of the file has at least two equals signs, the file-reading
loop of load_config raises the unpack ValueError, whatever the running config
is. -/
theorem processLines_unpack (l : String) (hc : pyContainsChar l '=' = true)
    (hlen : 3 ≤ (pySplitOn (pyStrip l) "=").length) :
    ∀ lines cfg, l ∈ lines →
      ∃ l2, processLines cfg lines = Except.error (LoadError.unpack l2) := by
  intro lines
  induction lines with
  | nil => intro cfg h; cases h
  | cons x xs ih =>
    intro cfg hmem
    cases hpc : processConfigLine cfg x with
    | error e =>
      have he := processConfigLine_error_eq cfg x e hpc
      exact ⟨x, by simp [processLines, hpc, he]⟩
    | ok cfg2 =>
      rcases List.mem_cons.mp hmem with rfl | hxs
      · exfalso
        unfold processConfigLine at hpc
        rw [if_pos hc] at hpc
        rcases hsp : pySplitOn (pyStrip l) "=" with _ | ⟨p1, _ | ⟨p2, _ | ⟨p3, ps⟩⟩⟩ <;>
          rw [hsp] at hlen hpc <;> simp at hlen hpc
      · obtain ⟨l2, h2⟩ := ih cfg2 hxs
        exact ⟨l2, by simp [processLines, hpc, h2]⟩

/-- C10: when config.txt exists and some line has two or more equals signs,
load_config fails with the unhandled ValueError raised by tuple unpacking on
such a line, not with credentials and not with the configuration error that
lists missing keys. -/
theorem loadConfig_unpack_value_error (lines : List String)
    (env : String → Option String) (l : String)
    (hmem : l ∈ lines) (hc : pyContainsChar l '=' = true)
    (hlen : 3 ≤ (pySplitOn (pyStrip l) "=").length) :
    ∃ l2, loadConfig (some lines) env = Except.error (LoadError.unpack l2) := by
  obtain ⟨l2, h⟩ := processLines_unpack l hc hlen lines (fun _ => none) hmem
  exact ⟨l2, by simp [loadConfig, h]⟩

/-- Witness for C10: a config.txt whose credential value itself contains an
equals sign. -/
theorem loadConfig_unpack_value_error_witness :
    ∃ l2, loadConfig (some ["OPENAI_API_KEY=sk-a=b"]) (fun _ => none) =
      Except.error (LoadError.unpack l2) :=
  loadConfig_unpack_value_error ["OPENAI_API_KEY=sk-a=b"] (fun _ => none)
    "OPENAI_API_KEY=sk-a=b" (by decide) (by decide) (by decide)

/-- C7: for a valid credential pair, load_config returns both values
unmodified whether they come from config.txt lines or from the environment,
and the config.txt value wins over any environment value since the
environment is consulted only for keys the file did not provide. envF is an
arbitrary environment, so the first part holds whatever the environment says
about the two keys. -/
theorem loadConfig_valid_credentials (lineK lineA k a : String)
    (envF envE : String → Option String)
    (hkc : pyContainsChar lineK '=' = true)
    (hks : pySplitOn (pyStrip lineK) "=" = ["OPENAI_API_KEY", k])
    (hac : pyContainsChar lineA '=' = true)
    (hat : pySplitOn (pyStrip lineA) "=" = ["ASSISTANT_ID", a])
    (hek : envE "OPENAI_API_KEY" = some k) (hk0 : k ≠ "")
    (hea : envE "ASSISTANT_ID" = some a) (ha0 : a ≠ "") :
    (∃ c, loadConfig (some [lineK, lineA]) envF = Except.ok c ∧
        c "OPENAI_API_KEY" = some k ∧ c "ASSISTANT_ID" = some a)
    ∧ (∃ c, loadConfig none envE = Except.ok c ∧
        c "OPENAI_API_KEY" = some k ∧ c "ASSISTANT_ID" = some a) := by
  constructor
  · have e1 : processConfigLine (fun _ => none) lineK =
        Except.ok (fun q => if q = "OPENAI_API_KEY" then some k else none) := by
      simp [processConfigLine, hkc, hks]
    have e2 : processConfigLine (fun q => if q = "OPENAI_API_KEY" then some k else none) lineA =
        Except.ok (fun q => if q = "ASSISTANT_ID" then some a
          else if q = "OPENAI_API_KEY" then some k else none) := by
      simp [processConfigLine, hac, hat]
    have epl : processLines (fun _ => none) [lineK, lineA] =
        Except.ok (fun q => if q = "ASSISTANT_ID" then some a
          else if q = "OPENAI_API_KEY" then some k else none) := by
      simp [processLines, e1, e2]
    have hKA : (fun q => if q = "ASSISTANT_ID" then some a
        else if q = "OPENAI_API_KEY" then some k else none) "OPENAI_API_KEY" = some k := by
      simp
    have hAA : (fun q => if q = "ASSISTANT_ID" then some a
        else if q = "OPENAI_API_KEY" then some k else none) "ASSISTANT_ID" = some a := by
      simp
    refine ⟨fun q => if q = "ASSISTANT_ID" then some a
      else if q = "OPENAI_API_KEY" then some k else none, ?_, hKA, hAA⟩
    simp only [loadConfig, epl]
    rw [show fillFromEnv envF (fun q => if q = "ASSISTANT_ID" then some a
        else if q = "OPENAI_API_KEY" then some k else none) requiredKeys =
        (fun q => if q = "ASSISTANT_ID" then some a
          else if q = "OPENAI_API_KEY" then some k else none) from by
      simp [fillFromEnv, requiredKeys, hKA, hAA]]
    simp [requiredKeys, hKA, hAA]
  · have hfill : fillFromEnv envE (fun _ => none) requiredKeys =
        (fun q => if q = "ASSISTANT_ID" then some a
          else if q = "OPENAI_API_KEY" then some k else none) := by
      simp only [requiredKeys, fillFromEnv, hek, hea, if_neg hk0, if_neg ha0]
      funext q
      by_cases hq : q = "ASSISTANT_ID" <;> simp [hq]
    have hKA2 : (fun q => if q = "ASSISTANT_ID" then some a
        else if q = "OPENAI_API_KEY" then some k else none) "OPENAI_API_KEY" = some k := by
      simp
    have hAA2 : (fun q => if q = "ASSISTANT_ID" then some a
        else if q = "OPENAI_API_KEY" then some k else none) "ASSISTANT_ID" = some a := by
      simp
    refine ⟨fun q => if q = "ASSISTANT_ID" then some a
      else if q = "OPENAI_API_KEY" then some k else none, ?_, hKA2, hAA2⟩
    simp only [loadConfig, hfill]
    simp [requiredKeys, hKA2, hAA2]

/-- Witness for C7 with concrete credentials: the file pair wins over an
environment that maps both keys to a different value, and the same pair is
returned when only the environment provides it. -/
theorem loadConfig_valid_credentials_witness :
    (∃ c, loadConfig (some ["OPENAI_API_KEY=sk-test123", "ASSISTANT_ID=asst-42"])
        (fun _ => some "OTHER") = Except.ok c ∧
        c "OPENAI_API_KEY" = some "sk-test123" ∧ c "ASSISTANT_ID" = some "asst-42")
    ∧ (∃ c, loadConfig none (fun q => if q = "OPENAI_API_KEY" then some "sk-test123"
        else if q = "ASSISTANT_ID" then some "asst-42" else none) = Except.ok c ∧
        c "OPENAI_API_KEY" = some "sk-test123" ∧ c "ASSISTANT_ID" = some "asst-42") :=
  loadConfig_valid_credentials "OPENAI_API_KEY=sk-test123" "ASSISTANT_ID=asst-42"
    "sk-test123" "asst-42" (fun _ => some "OTHER")
    (fun q => if q = "OPENAI_API_KEY" then some "sk-test123"
      else if q = "ASSISTANT_ID" then some "asst-42" else none)
    (by decide) (by decide) (by decide) (by decide)
    (by decide) (by decide) (by decide) (by decide)

end GenMJP
